import Mathlib

/-!
Shallow embedding of the rate-limited retrieval engine of the
cms_eligibility_extractor repository, together with theorems checking the
natural-language specification against it.

Embedded modules:
  - src/api/rate_limiter.py   (RateLimitConfig, RateLimiter, ExponentialBackoff,
                               with_rate_limit_and_retry)
  - src/api/cms_client.py     (CMSEligibilityClient.get_eligibility and its
                               statistics counters)
  - src/processors/multi_year_orchestrator.py
                              (MultiYearOrchestrator.process_year,
                               resume_from_checkpoint)

Floating-point quantities of the source (token counts, delays) are modelled as
rationals; wall-clock reads are modelled by passing the elapsed time into each
operation; randomness (random.uniform) is modelled by passing the drawn value
in explicitly, together with the bound the distribution guarantees.
-/

namespace CmsExtractor

/-- Translation of dataclass RateLimitConfig (rate_limiter.py lines 18-27),
with the same defaults. Floats become rationals, ints become naturals. -/
structure RateLimitConfig where
  requests_per_second : ℚ := 2
  burst_requests : ℕ := 5
  retry_delay : ℚ := 1
  max_retry_delay : ℚ := 8
  backoff_factor : ℚ := 2
  max_retries : ℕ := 3
  jitter : Bool := true
deriving Repr, DecidableEq

/-! ## RateLimiter (token bucket), rate_limiter.py lines 30-99

The mutable state is the token count; the last_refill timestamp is folded into
the elapsed-time argument passed to each refill. -/

/-- Token-bucket state: the current token count (a float in the source). -/
structure BucketState where
  tokens : ℚ
deriving Repr, DecidableEq

/-- Translation of RateLimiter._refill_tokens (lines 81-89): add
elapsed * requests_per_second tokens, capped at burst_requests. The caller
supplies the elapsed wall-clock time since the previous refill. -/
def refill_tokens (cfg : RateLimitConfig) (st : BucketState) (elapsed : ℚ) :
    BucketState :=
  let tokens_to_add := elapsed * cfg.requests_per_second
  { tokens := min (cfg.burst_requests : ℚ) (st.tokens + tokens_to_add) }

/-- One pass of the locked section of RateLimiter.acquire (lines 60-66):
refill, then if at least one token is available, take one and report success;
otherwise leave the state and report failure (the source then sleeps and
loops; each loop iteration is one acquireStep). -/
def acquireStep (cfg : RateLimitConfig) (st : BucketState) (elapsed : ℚ) :
    BucketState × Bool :=
  let st := refill_tokens cfg st elapsed
  if 1 ≤ st.tokens then ({ tokens := st.tokens - 1 }, true) else (st, false)

/-- Initial bucket state (constructor line 38: self.tokens = burst_requests). -/
def initBucket (cfg : RateLimitConfig) : BucketState :=
  { tokens := (cfg.burst_requests : ℚ) }

/-- All states reached while running a sequence of acquire attempts, each with
its own elapsed-time reading; the list includes the initial and every
subsequent state. -/
def bucketStates (cfg : RateLimitConfig) :
    BucketState → List ℚ → List BucketState
  | st, [] => [st]
  | st, e :: es => st :: bucketStates cfg (acquireStep cfg st e).1 es

/-! ## ExponentialBackoff, rate_limiter.py lines 103-168 -/

/-- Classification of a Python exception as the retry logic sees it:
ConnectionError, TimeoutError and OSError are the retryable classes (lines
161-166); anything else is not. -/
inductive ExcClass where
  | connection
  | timeoutE
  | osErr
  | otherE
deriving Repr, DecidableEq

/-- A raised exception: its class, whether it is a requests.RequestException
(those are the ones _make_request_impl counts as connection errors before
re-raising), and its message (str(e)). -/
structure Exc where
  cls : ExcClass
  isReqExc : Bool
  msg : String
deriving Repr, DecidableEq

/-- The isinstance((ConnectionError, TimeoutError, OSError)) test of
should_retry (lines 161-166). -/
def retryableExc (e : Exc) : Bool :=
  match e.cls with
  | .connection => true
  | .timeoutE => true
  | .osErr => true
  | .otherE => false

/-- Translation of ExponentialBackoff.should_retry (lines 136-168). The
status argument mirrors the optional status_code parameter; in the source a
status of 0 is falsy and so skips the 5xx test, which is preserved here. -/
def should_retry (cfg : RateLimitConfig) (attempt : ℕ)
    (status_code : Option ℕ) (exception : Option Exc) : Bool :=
  if cfg.max_retries ≤ attempt then false
  else if status_code = some 429 then true
  else if (match status_code with
           | some s => decide (s ≠ 0 ∧ 500 ≤ s ∧ s < 600)
           | none => false) then true
  else match exception with
    | some e => retryableExc e
    | none => false

/-- Translation of ExponentialBackoff.calculate_delay (lines 111-134), with
the config default for base_delay. The random draw of random.uniform is
passed in as j; validJitterDraw below states the bound the distribution
guarantees. -/
def calculate_delay (cfg : RateLimitConfig) (attempt : ℕ) (j : ℚ) : ℚ :=
  let base_delay := cfg.retry_delay
  let delay := base_delay * cfg.backoff_factor ^ attempt
  let delay := min delay cfg.max_retry_delay
  let delay := if cfg.jitter then delay + j else delay
  max 0 delay

/-- The guarantee random.uniform(-jitter_range, jitter_range) gives about the
drawn value, where jitter_range = 0.1 * the capped delay (lines 130-132). -/
def validJitterDraw (cfg : RateLimitConfig) (attempt : ℕ) (j : ℚ) : Prop :=
  |j| ≤ min (cfg.retry_delay * cfg.backoff_factor ^ attempt)
        cfg.max_retry_delay * (1 / 10)

/-! ## with_rate_limit_and_retry, rate_limiter.py lines 171-247

The wrapped function func is modelled by the attempt-indexed map fetch: the
result of its invocation on loop iteration number attempt (each iteration
invokes func exactly once, and attempt increases by one between iterations).
Token acquisition success is likewise the attempt-indexed map acq. Sleeps are
dropped: they do not affect any value computed here. -/

/-- Result of one invocation of the wrapped function: a response carrying an
HTTP status code and a body, or a raised exception. -/
inductive FuncResult where
  | resp (status : ℕ) (body : String)
  | exc (e : Exc)
deriving Repr, DecidableEq

/-- The exception raised at line 191 when token acquisition times out.
TimeoutError is an OSError subclass and not a requests exception. -/
def rateLimiterTimeoutExc : Exc :=
  { cls := .timeoutE, isReqExc := false,
    msg := "Rate limiter timeout - could not acquire token" }

/-- What the wrapper invocation produces for its caller: a returned response,
a raised exception, or the raise RuntimeError of line 244. -/
inductive WrapResult where
  | ok (status : ℕ) (body : String)
  | raised (e : Exc)
  | runtimeErr
deriving Repr, DecidableEq

/-- A wrapper run together with the observable side effects the claims talk
about: number of invocations of the wrapped function, successful token
acquisitions, and the counter increments performed along the way
(rate_limiter.rate_limited_requests at line 201; the client counters
stats total_requests and stats connection_errors inside _make_request_impl,
cms_client.py lines 156 and 165). -/
structure WrapRun where
  result : WrapResult
  calls : ℕ
  tokenAcquires : ℕ
  rateLimited : ℕ
  totalReq : ℕ
  connErrs : ℕ
deriving Repr, DecidableEq

/-- The code after the while loop (lines 239-244): raise the recorded last
exception if any, else raise RuntimeError. -/
def loopExit (lastExc : Option Exc) : WrapRun :=
  match lastExc with
  | some e => { result := .raised e, calls := 0, tokenAcquires := 0,
                rateLimited := 0, totalReq := 0, connErrs := 0 }
  | none => { result := .runtimeErr, calls := 0, tokenAcquires := 0,
              rateLimited := 0, totalReq := 0, connErrs := 0 }

/-- One retry-loop entry recording a completed call and its counter deltas in
front of the rest of the run. -/
def consCall (rest : WrapRun) (rl tot ce : ℕ) : WrapRun :=
  { rest with
    calls := rest.calls + 1,
    tokenAcquires := rest.tokenAcquires + 1,
    rateLimited := rest.rateLimited + rl,
    totalReq := rest.totalReq + tot,
    connErrs := rest.connErrs + ce }

/-- Translation of the while loop of wrapper (lines 185-244). The loop
condition attempt <= max_retries is tested explicitly; fuel bounds the
recursion and is shown adequate below (the attempt counter rises by one per
iteration, so max_retries + 1 - attempt iterations remain). -/
def wrapperLoop (cfg : RateLimitConfig) (acq : ℕ → Bool)
    (fetch : ℕ → FuncResult) (lastExc : Option Exc) (attempt : ℕ) :
    ℕ → WrapRun
  | 0 => loopExit lastExc
  | fuel + 1 =>
    if attempt ≤ cfg.max_retries then
      if acq attempt then
        match fetch attempt with
        | .resp status body =>
          if status = 429 then
            if should_retry cfg attempt (some status) none then
              consCall (wrapperLoop cfg acq fetch lastExc (attempt + 1) fuel)
                1 1 0
            else
              { result := .ok status body, calls := 1, tokenAcquires := 1,
                rateLimited := 1, totalReq := 1, connErrs := 0 }
          else
            { result := .ok status body, calls := 1, tokenAcquires := 1,
              rateLimited := 0, totalReq := 1, connErrs := 0 }
        | .exc e =>
          if should_retry cfg attempt none (some e) then
            consCall (wrapperLoop cfg acq fetch (some e) (attempt + 1) fuel)
              0 0 (if e.isReqExc then 1 else 0)
          else
            { result := .raised e, calls := 1, tokenAcquires := 1,
              rateLimited := 0, totalReq := 0,
              connErrs := if e.isReqExc then 1 else 0 }
      else
        { result := .raised rateLimiterTimeoutExc, calls := 0,
          tokenAcquires := 0, rateLimited := 0, totalReq := 0, connErrs := 0 }
    else
      loopExit lastExc

/-- Translation of the decorated call: wrapper starts at attempt 0 with no
recorded exception; max_retries + 1 fuel is exactly the number of loop
iterations the attempt counter allows. -/
def with_rate_limit_and_retry (cfg : RateLimitConfig) (acq : ℕ → Bool)
    (fetch : ℕ → FuncResult) : WrapRun :=
  wrapperLoop cfg acq fetch none 0 (cfg.max_retries + 1)

/-! ## CMSEligibilityClient, cms_client.py

The HTTP layer is the injected attempt-indexed fetch map already used by the
wrapper; response-body parsing and pydantic validation (EligibilityResponse)
is the injected parse map, returning the parsed payload or the message of the
raised json.JSONDecodeError / ValueError. -/

/-- Translation of ProcessingMetadata (flexible_schema.py lines 287-295),
without the processed_at timestamp. -/
structure ProcessingMetadata where
  npi : String
  year : ℕ
  success : Bool
  status_code : Option ℕ := none
  error_message : Option String := none
  retry_count : ℕ := 0
deriving Repr, DecidableEq

/-- The client statistics counters (cms_client.py lines 92-102), minus the
timing field; values here are the increments performed during one call. -/
structure ClientStats where
  total_requests : ℕ := 0
  successful_requests : ℕ := 0
  failed_requests : ℕ := 0
  not_found_requests : ℕ := 0
  bad_request_errors : ℕ := 0
  rate_limit_errors : ℕ := 0
  server_errors : ℕ := 0
  connection_errors : ℕ := 0
deriving Repr, DecidableEq

/-- Model of the Python str.isdigit character test. Python accepts every
character whose Unicode numeric type is Decimal or Digit, a set strictly
larger than the ASCII decimal digits: it contains the decimal-digit blocks
of other scripts and also non-decimal digit characters such as the
superscript and subscript digits. The model lists the ASCII digits together
with the Latin-1 superscripts, the superscript and subscript blocks, and
three representative non-Latin decimal blocks; the remaining Unicode digit
blocks behave like these representatives. -/
def pyIsDigit (c : Char) : Bool :=
  let n := c.toNat
  (0x30 ≤ n && n ≤ 0x39) ||
  n == 0xB2 || n == 0xB3 || n == 0xB9 ||
  (0x2070 ≤ n && n ≤ 0x2079) ||
  (0x2080 ≤ n && n ≤ 0x2089) ||
  (0x660 ≤ n && n ≤ 0x669) ||
  (0x6F0 ≤ n && n ≤ 0x6F9) ||
  (0x966 ≤ n && n ≤ 0x96F)

/-- The NPI validation of get_eligibility line 184:
npi.isdigit() and len(npi) == 10. Python isdigit is the Unicode digit-type
test pyIsDigit, so the source accepts any ten digit-type characters, not
only ASCII decimal digits; isdigit is false on the empty string, which the
length test subsumes. -/
def isValidNpi (npi : String) : Bool :=
  npi.data.all pyIsDigit && npi.data.length == 10

/-- One call of get_eligibility with everything the claims observe: the
returned pair, the client counter increments, and how many network calls and
rate-limiter tokens the call consumed. -/
structure FetchRun where
  data : Option String
  metadata : ProcessingMetadata
  stats : ClientStats
  networkCalls : ℕ
  tokensConsumed : ℕ
  rateLimitedCount : ℕ
deriving Repr, DecidableEq

/-- Translation of CMSEligibilityClient.get_eligibility (cms_client.py lines
169-273). The decorated _make_request is the retry wrapper over the injected
transport fetch; parse stands for response.json() plus EligibilityResponse
validation on a 200 body. URL and query-parameter construction carry no
information the claims mention and are dropped. -/
def get_eligibility (cfg : RateLimitConfig)
    (parse : String → Except String String) (acq : ℕ → Bool)
    (fetch : ℕ → FuncResult) (npi : String) (year : Option ℕ) : FetchRun :=
  if !(isValidNpi npi) then
    { data := none,
      metadata := { npi := npi, year := year.getD 0, success := false,
                    error_message :=
                      some "Invalid NPI format (must be 10 digits)" },
      stats := {}, networkCalls := 0, tokensConsumed := 0,
      rateLimitedCount := 0 }
  else
    let run := with_rate_limit_and_retry cfg acq fetch
    let base : ClientStats :=
      { total_requests := run.totalReq, connection_errors := run.connErrs }
    match run.result with
    | .ok s body =>
      let md : ProcessingMetadata :=
        { npi := npi, year := year.getD 0, success := false,
          status_code := some s }
      if s = 200 then
        match parse body with
        | .ok d =>
          { data := some d, metadata := { md with success := true },
            stats := { base with successful_requests := 1 },
            networkCalls := run.calls, tokensConsumed := run.tokenAcquires,
            rateLimitedCount := run.rateLimited }
        | .error emsg =>
          { data := none,
            metadata := { md with
              error_message := some ("Failed to parse response: " ++ emsg) },
            stats := { base with failed_requests := 1 },
            networkCalls := run.calls, tokensConsumed := run.tokenAcquires,
            rateLimitedCount := run.rateLimited }
      else if s = 404 then
        { data := none,
          metadata := { md with error_message := some "NPI not found" },
          stats := { base with not_found_requests := 1 },
          networkCalls := run.calls, tokensConsumed := run.tokenAcquires,
          rateLimitedCount := run.rateLimited }
      else if s = 400 then
        { data := none,
          metadata := { md with error_message := some "Bad request" },
          stats := { base with bad_request_errors := 1 },
          networkCalls := run.calls, tokensConsumed := run.tokenAcquires,
          rateLimitedCount := run.rateLimited }
      else if s = 429 then
        { data := none,
          metadata := { md with error_message := some "Rate limited" },
          stats := { base with rate_limit_errors := 1 },
          networkCalls := run.calls, tokensConsumed := run.tokenAcquires,
          rateLimitedCount := run.rateLimited }
      else if 500 ≤ s && s < 600 then
        { data := none,
          metadata := { md with
            error_message :=
              some ("Server error (" ++ toString s ++ ")") },
          stats := { base with server_errors := 1 },
          networkCalls := run.calls, tokensConsumed := run.tokenAcquires,
          rateLimitedCount := run.rateLimited }
      else
        { data := none,
          metadata := { md with
            error_message :=
              some ("Unexpected status code: " ++ toString s) },
          stats := { base with failed_requests := 1 },
          networkCalls := run.calls, tokensConsumed := run.tokenAcquires,
          rateLimitedCount := run.rateLimited }
    | .raised e =>
      { data := none,
        metadata := { npi := npi, year := year.getD 0, success := false,
                      error_message := some e.msg },
        stats := { base with failed_requests := 1 },
        networkCalls := run.calls, tokensConsumed := run.tokenAcquires,
        rateLimitedCount := run.rateLimited }
    | .runtimeErr =>
      { data := none,
        metadata := { npi := npi, year := year.getD 0, success := false,
                      error_message := some "Max retries exceeded" },
        stats := { base with failed_requests := 1 },
        networkCalls := run.calls, tokensConsumed := run.tokenAcquires,
        rateLimitedCount := run.rateLimited }

/-! ## MultiYearOrchestrator, multi_year_orchestrator.py

The per-year result dictionary year_results is an insertion-ordered
association list with Python dict overwrite semantics. The fetch path
(cms_client.get_eligibility), the raw-response save and the
data-processor step are injected as possibly-raising operations; the progress
callback and checkpoint write are effect-only and carry no modelled state. -/

/-- Python dict assignment d[k] = v: overwrite in place if the key is
present, else append at the end. -/
def dictInsert {V : Type} (l : List (String × V)) (k : String) (v : V) :
    List (String × V) :=
  match l with
  | [] => [(k, v)]
  | (k2, v2) :: rest =>
    if k2 = k then (k2, v) :: rest else (k2, v2) :: dictInsert rest k v

/-- Python dict lookup d[k] (as an Option). -/
def dictLookup {V : Type} (l : List (String × V)) (k : String) : Option V :=
  match l with
  | [] => none
  | (k2, v) :: rest => if k2 = k then some v else dictLookup rest k

/-- The value stored per NPI in year_results: the (eligibility_response,
metadata) pair returned by get_eligibility. -/
abbrev Outcome := Option String × ProcessingMetadata

/-- The state the process_year loop threads through its iterations: the
result dictionary, the two counters, and the number of invocations of the
fetch path made so far. -/
structure YearState where
  results : List (String × Outcome)
  successful_count : ℕ
  failed_count : ℕ
  fetchCalls : ℕ
deriving Repr, DecidableEq

/-- Translation of one iteration of the process_year loop
(multi_year_orchestrator.py lines 153-199). fetchE is the
cms_client.get_eligibility call (possibly raising), saveRaw the raw-response
file write (lines 160-165), procRec the data_processor step guarded by its
own inner try (lines 169-182). An exception anywhere in the body is caught
by the per-NPI handler (lines 196-199), which increments failed_count and
moves to the next NPI. -/
def processNpi (fetchE : String → Except Exc Outcome)
    (save_raw_responses : Bool) (saveRaw : String → Except Exc Unit)
    (procRec : String → Except Exc Unit) (st : YearState) (npi : String) :
    YearState :=
  let st := { st with fetchCalls := st.fetchCalls + 1 }
  match fetchE npi with
  | .error _ => { st with failed_count := st.failed_count + 1 }
  | .ok oc =>
    let st := { st with results := dictInsert st.results npi oc }
    match (if save_raw_responses && oc.1.isSome then saveRaw npi
           else .ok ()) with
    | .error _ => { st with failed_count := st.failed_count + 1 }
    | .ok _ =>
      if oc.1.isSome && oc.2.success then
        match procRec npi with
        | .ok _ => { st with successful_count := st.successful_count + 1 }
        | .error _ => { st with failed_count := st.failed_count + 1 }
      else
        { st with failed_count := st.failed_count + 1 }

/-- Translation of MultiYearOrchestrator.process_year (lines 104-232)
restricted to what the claims observe: the guard on an empty NPI list (line
126-127) and the per-NPI loop. -/
def process_year (fetchE : String → Except Exc Outcome)
    (save_raw_responses : Bool) (saveRaw : String → Except Exc Unit)
    (procRec : String → Except Exc Unit) (npis : List String) :
    Except String YearState :=
  if npis.isEmpty then .error "No NPIs loaded. Call load_npis() first."
  else .ok (npis.foldl (processNpi fetchE save_raw_responses saveRaw procRec)
    { results := [], successful_count := 0, failed_count := 0,
      fetchCalls := 0 })

/-- The checkpoint record written by _save_checkpoint (lines 374-381),
without the timestamp. -/
structure Checkpoint where
  year : ℕ
  npis_processed : ℕ
  total_npis : ℕ
  successful_npis : ℕ
  failed_npis : ℕ
deriving Repr, DecidableEq

/-- Translation of MultiYearOrchestrator.resume_from_checkpoint (lines
437-462). The stored argument models the checkpoint file: none when the file
does not exist, an error value when reading or parsing it raises. The method
only returns the loaded data; it does not alter any processing state. -/
def resume_from_checkpoint (stored : Option (Except String Checkpoint)) :
    Option Checkpoint :=
  match stored with
  | none => none
  | some (Except.error _) => none
  | some (Except.ok c) => some c

/-! ## Concrete fixtures used to evaluate the embedding at specific inputs -/

/-- Token acquisition that always succeeds within the 30s timeout. -/
def acqAll : ℕ → Bool := fun _ => true

/-- Token acquisition that always times out. -/
def acqNone : ℕ → Bool := fun _ => false

/-- A parse step that accepts every body. -/
def parseId : String → Except String String := fun b => Except.ok b

/-- Mock transport: HTTP 500 on the first attempt, 200 afterwards. -/
def fetch500then200 : ℕ → FuncResult :=
  fun a => if a = 0 then .resp 500 "err" else .resp 200 "good"

/-- Mock transport: HTTP 429 on the first attempt, 200 afterwards. -/
def fetch429then200 : ℕ → FuncResult :=
  fun a => if a = 0 then .resp 429 "x" else .resp 200 "y"

/-- An unexpected (non-retryable, non-requests) exception. -/
def excBoom : Exc := { cls := .otherE, isReqExc := false, msg := "boom" }

/-- A successful outcome for an NPI, as get_eligibility would return it. -/
def okOutcome (n : String) : Outcome :=
  (some "d", { npi := n, year := 2024, success := true,
               status_code := some 200 })

/-- A fetch path raising the unexpected exception on NPI b only. -/
def fetchBoomB : String → Except Exc Outcome :=
  fun n => if n = "b" then .error excBoom else .ok (okOutcome n)

/-- A fetch path that succeeds on every NPI. -/
def fetchAllOk : String → Except Exc Outcome := fun n => .ok (okOutcome n)

/-- A raw-save / record-process step that never raises. -/
def saveNoop : String → Except Exc Unit := fun _ => Except.ok ()

/-- A config whose base delay already sits at the cap, jitter left enabled
(the default). -/
def cfgJitterHigh : RateLimitConfig := { retry_delay := 8 }

/-- The default config with jitter turned off. -/
def cfgNoJitter : RateLimitConfig := { jitter := false }

/-- A config with burst capacity 2. -/
def cfgSmallBucket : RateLimitConfig := { burst_requests := 2 }

/-- Five distinct valid NPIs. -/
def npis5 : List String :=
  ["1111111111", "2222222222", "3333333333", "4444444444", "5555555555"]

/-- A stored checkpoint file recording 2 of 5 NPIs processed. -/
def ckStored : Option (Except String Checkpoint) :=
  some (Except.ok { year := 2024, npis_processed := 2, total_npis := 5,
                    successful_npis := 2, failed_npis := 0 })

/-- Mock transport that always raises the unexpected exception. -/
def fetchRaise : ℕ → FuncResult := fun _ => .exc excBoom

/-- Mock transport that succeeds immediately. -/
def fetch200 : ℕ → FuncResult := fun _ => .resp 200 "ok"

/-- Ten superscript-two characters: every character has Unicode digit type,
so the string passes the source validation, yet none of them is a decimal
digit. -/
def npiSuperscripts : String := "²²²²²²²²²²"

/-- One get_eligibility call against the 429-then-200 transport with the
default config: one terminal outcome (success) after one retry. -/
def c7run : FetchRun :=
  get_eligibility {} parseId acqAll fetch429then200 "1234567890" (some 2024)

/-- The sum of the per-terminal-outcome classification counters of one
get_eligibility call (success, parse/transport/unexpected failure,
not-found, bad-request, rate-limited, server-error). -/
def classificationTotal (s : ClientStats) : ℕ :=
  s.successful_requests + s.failed_requests + s.not_found_requests +
    s.bad_request_errors + s.rate_limit_errors + s.server_errors

end CmsExtractor

namespace CmsExtractor

/-! ## Theorems -/

/-- Claim C1: the spec says a 5xx response below the retry limit is retried
after a backoff sleep, and demoted to a terminal failure only after the limit
is exhausted, so a mock fetch returning 500 then 200 ends in success with at
least one retry. The code does not do this: the wrapper consults should_retry
only when the status is 429, so a 500 response is returned as the terminal
result after exactly one call, even though should_retry itself would have
permitted the retry (its 5xx branch is unreachable from the status path).
This theorem shows both facts at the failing input. -/
theorem claim_C1_500_not_retried :
    should_retry {} 0 (some 500) none = true ∧
    with_rate_limit_and_retry {} acqAll fetch500then200 =
      { result := .ok 500 "err", calls := 1, tokenAcquires := 1,
        rateLimited := 0, totalReq := 1, connErrs := 0 } := by
  constructor
  · rfl
  · rfl

/-- Claim C5, counterexample: with jitter enabled (the default), a valid
uniform draw pushes the delay above max_retry_delay, so the unconditional
bound delayFor(attempt) ≤ max_retry_delay of the claim fails: with base
delay 8, cap 8, attempt 0 < max_retries and draw 1/2 (within the ±10 percent
jitter range 4/5), the computed delay is 17/2 > 8. -/
theorem claim_C5_jitter_exceeds_cap :
    validJitterDraw cfgJitterHigh 0 (1 / 2) ∧
    (0 : ℕ) < cfgJitterHigh.max_retries ∧
    ¬ calculate_delay cfgJitterHigh 0 (1 / 2) ≤
        cfgJitterHigh.max_retry_delay := by
  refine ⟨?_, ?_, ?_⟩
  · show |(1 / 2 : ℚ)| ≤ _
    norm_num [cfgJitterHigh, abs_le]
  · norm_num [cfgJitterHigh]
  · norm_num [calculate_delay, cfgJitterHigh]

/-- Claim C5, amended: with jitter disabled, the delay equals
min(base_delay * backoff_factor ^ attempt, max_retry_delay) clamped to be
non-negative, is at most max_retry_delay, and is non-decreasing in the
attempt number, for every attempt below max_retries (given non-negative base
and cap and backoff factor above 1); with jitter enabled the bound only
holds up to the jitter margin, as the counterexample shows. -/
theorem claim_C5_backoff_bound_no_jitter (cfg : RateLimitConfig)
    (hj : cfg.jitter = false) (hbase : 0 ≤ cfg.retry_delay)
    (hmax : 0 ≤ cfg.max_retry_delay) (hfac : 1 < cfg.backoff_factor) :
    (∀ attempt : ℕ, ∀ j : ℚ, attempt < cfg.max_retries →
        calculate_delay cfg attempt j =
          max 0 (min (cfg.retry_delay * cfg.backoff_factor ^ attempt)
            cfg.max_retry_delay) ∧
        calculate_delay cfg attempt j ≤ cfg.max_retry_delay) ∧
    (∀ a b : ℕ, ∀ j : ℚ, a ≤ b → b < cfg.max_retries →
        calculate_delay cfg a j ≤ calculate_delay cfg b j) := by
  have hform : ∀ (attempt : ℕ) (j : ℚ), calculate_delay cfg attempt j =
      max 0 (min (cfg.retry_delay * cfg.backoff_factor ^ attempt)
        cfg.max_retry_delay) := by
    intro attempt j
    simp [calculate_delay, hj]
  constructor
  · intro attempt j _
    refine ⟨hform attempt j, ?_⟩
    rw [hform]
    exact max_le hmax (min_le_right _ _)
  · intro a b j hab _
    rw [hform, hform]
    refine max_le_max le_rfl (min_le_min ?_ le_rfl)
    exact mul_le_mul_of_nonneg_left
      (pow_le_pow_right₀ (le_of_lt hfac) hab) hbase

/-- Claim C5 witness: the amended statement evaluated on the default config
with jitter disabled. -/
theorem claim_C5_witness :
    cfgNoJitter.jitter = false ∧
    ((∀ attempt : ℕ, ∀ j : ℚ, attempt < cfgNoJitter.max_retries →
        calculate_delay cfgNoJitter attempt j =
          max 0 (min (cfgNoJitter.retry_delay *
            cfgNoJitter.backoff_factor ^ attempt)
            cfgNoJitter.max_retry_delay) ∧
        calculate_delay cfgNoJitter attempt j ≤
          cfgNoJitter.max_retry_delay) ∧
    (∀ a b : ℕ, ∀ j : ℚ, a ≤ b → b < cfgNoJitter.max_retries →
        calculate_delay cfgNoJitter a j ≤ calculate_delay cfgNoJitter b j)) :=
  ⟨rfl, claim_C5_backoff_bound_no_jitter cfgNoJitter rfl
    (by norm_num [cfgNoJitter]) (by norm_num [cfgNoJitter])
    (by norm_num [cfgNoJitter])⟩

/-! Unfolding lemmas for one iteration of the retry loop. -/

theorem should_retry_of_limit (cfg : RateLimitConfig) (attempt : ℕ)
    (st : Option ℕ) (ex : Option Exc) (h : cfg.max_retries ≤ attempt) :
    should_retry cfg attempt st ex = false := by
  simp [should_retry, h]

theorem should_retry_429 (cfg : RateLimitConfig) (attempt : ℕ)
    (h : attempt < cfg.max_retries) :
    should_retry cfg attempt (some 429) none = true := by
  simp [should_retry, Nat.not_le.mpr h]

theorem should_retry_exc (cfg : RateLimitConfig) (attempt : ℕ) (e : Exc)
    (h : attempt < cfg.max_retries) :
    should_retry cfg attempt none (some e) = retryableExc e := by
  simp [should_retry, Nat.not_le.mpr h]

theorem wrapperLoop_zero (cfg : RateLimitConfig) (acq : ℕ → Bool)
    (fetch : ℕ → FuncResult) (lastExc : Option Exc) (attempt : ℕ) :
    wrapperLoop cfg acq fetch lastExc attempt 0 = loopExit lastExc := rfl

theorem wrapperLoop_exit (cfg : RateLimitConfig) (acq : ℕ → Bool)
    (fetch : ℕ → FuncResult) (lastExc : Option Exc) (attempt fuel : ℕ)
    (h : ¬ attempt ≤ cfg.max_retries) :
    wrapperLoop cfg acq fetch lastExc attempt (fuel + 1) =
      loopExit lastExc := by
  simp [wrapperLoop, h]

theorem wrapperLoop_acqFail (cfg : RateLimitConfig) (acq : ℕ → Bool)
    (fetch : ℕ → FuncResult) (lastExc : Option Exc) (attempt fuel : ℕ)
    (h1 : attempt ≤ cfg.max_retries) (h2 : acq attempt = false) :
    wrapperLoop cfg acq fetch lastExc attempt (fuel + 1) =
      { result := .raised rateLimiterTimeoutExc, calls := 0,
        tokenAcquires := 0, rateLimited := 0, totalReq := 0,
        connErrs := 0 } := by
  simp [wrapperLoop, h1, h2]

theorem wrapperLoop_resp429_retry (cfg : RateLimitConfig) (acq : ℕ → Bool)
    (fetch : ℕ → FuncResult) (lastExc : Option Exc) (attempt fuel : ℕ)
    (b : String) (h1 : attempt ≤ cfg.max_retries) (h2 : acq attempt = true)
    (hf : fetch attempt = .resp 429 b)
    (hr : should_retry cfg attempt (some 429) none = true) :
    wrapperLoop cfg acq fetch lastExc attempt (fuel + 1) =
      consCall (wrapperLoop cfg acq fetch lastExc (attempt + 1) fuel)
        1 1 0 := by
  simp [wrapperLoop, h1, h2, hf, hr]

theorem wrapperLoop_resp429_stop (cfg : RateLimitConfig) (acq : ℕ → Bool)
    (fetch : ℕ → FuncResult) (lastExc : Option Exc) (attempt fuel : ℕ)
    (b : String) (h1 : attempt ≤ cfg.max_retries) (h2 : acq attempt = true)
    (hf : fetch attempt = .resp 429 b)
    (hr : should_retry cfg attempt (some 429) none = false) :
    wrapperLoop cfg acq fetch lastExc attempt (fuel + 1) =
      { result := .ok 429 b, calls := 1, tokenAcquires := 1,
        rateLimited := 1, totalReq := 1, connErrs := 0 } := by
  simp [wrapperLoop, h1, h2, hf, hr]

theorem wrapperLoop_resp_other (cfg : RateLimitConfig) (acq : ℕ → Bool)
    (fetch : ℕ → FuncResult) (lastExc : Option Exc) (attempt fuel : ℕ)
    (s : ℕ) (b : String) (h1 : attempt ≤ cfg.max_retries)
    (h2 : acq attempt = true) (hf : fetch attempt = .resp s b)
    (hs : s ≠ 429) :
    wrapperLoop cfg acq fetch lastExc attempt (fuel + 1) =
      { result := .ok s b, calls := 1, tokenAcquires := 1,
        rateLimited := 0, totalReq := 1, connErrs := 0 } := by
  simp [wrapperLoop, h1, h2, hf, hs]

theorem wrapperLoop_exc_retry (cfg : RateLimitConfig) (acq : ℕ → Bool)
    (fetch : ℕ → FuncResult) (lastExc : Option Exc) (attempt fuel : ℕ)
    (e : Exc) (h1 : attempt ≤ cfg.max_retries) (h2 : acq attempt = true)
    (hf : fetch attempt = .exc e)
    (hr : should_retry cfg attempt none (some e) = true) :
    wrapperLoop cfg acq fetch lastExc attempt (fuel + 1) =
      consCall (wrapperLoop cfg acq fetch (some e) (attempt + 1) fuel)
        0 0 (if e.isReqExc then 1 else 0) := by
  simp [wrapperLoop, h1, h2, hf, hr]

theorem wrapperLoop_exc_stop (cfg : RateLimitConfig) (acq : ℕ → Bool)
    (fetch : ℕ → FuncResult) (lastExc : Option Exc) (attempt fuel : ℕ)
    (e : Exc) (h1 : attempt ≤ cfg.max_retries) (h2 : acq attempt = true)
    (hf : fetch attempt = .exc e)
    (hr : should_retry cfg attempt none (some e) = false) :
    wrapperLoop cfg acq fetch lastExc attempt (fuel + 1) =
      { result := .raised e, calls := 1, tokenAcquires := 1,
        rateLimited := 0, totalReq := 0,
        connErrs := if e.isReqExc then 1 else 0 } := by
  simp [wrapperLoop, h1, h2, hf, hr]

/-- Auxiliary: the loop makes at most fuel invocations of the wrapped
function. -/
theorem wrapperLoop_calls_le (cfg : RateLimitConfig) (acq : ℕ → Bool)
    (fetch : ℕ → FuncResult) :
    ∀ (fuel attempt : ℕ) (lastExc : Option Exc),
      (wrapperLoop cfg acq fetch lastExc attempt fuel).calls ≤ fuel := by
  intro fuel
  induction fuel with
  | zero =>
    intro attempt lastExc
    cases lastExc <;> simp [wrapperLoop_zero, loopExit]
  | succ f ih =>
    intro attempt lastExc
    by_cases h1 : attempt ≤ cfg.max_retries
    · by_cases h2 : acq attempt = true
      · cases hf : fetch attempt with
        | resp s b =>
          by_cases hs : s = 429
          · subst hs
            cases hr : should_retry cfg attempt (some 429) none with
            | true =>
              rw [wrapperLoop_resp429_retry cfg acq fetch lastExc attempt f
                b h1 h2 hf hr]
              have := ih (attempt + 1) lastExc
              simp only [consCall]
              omega
            | false =>
              rw [wrapperLoop_resp429_stop cfg acq fetch lastExc attempt f
                b h1 h2 hf hr]
              exact Nat.succ_le_succ (Nat.zero_le f)
          · rw [wrapperLoop_resp_other cfg acq fetch lastExc attempt f
              s b h1 h2 hf hs]
            exact Nat.succ_le_succ (Nat.zero_le f)
        | exc e =>
          cases hr : should_retry cfg attempt none (some e) with
          | true =>
            rw [wrapperLoop_exc_retry cfg acq fetch lastExc attempt f
              e h1 h2 hf hr]
            have := ih (attempt + 1) (some e)
            simp only [consCall]
            omega
          | false =>
            rw [wrapperLoop_exc_stop cfg acq fetch lastExc attempt f
              e h1 h2 hf hr]
            exact Nat.succ_le_succ (Nat.zero_le f)
      · have h2f : acq attempt = false := by simpa using h2
        rw [wrapperLoop_acqFail cfg acq fetch lastExc attempt f h1 h2f]
        exact Nat.zero_le _
    · rw [wrapperLoop_exit cfg acq fetch lastExc attempt f h1]
      cases lastExc <;> simp [loopExit]

/-- Auxiliary: with the attempt counter and the fuel in step (fuel covers the
remaining admissible attempts), adding fuel does not change the run, which is
how the source loop terminates: the attempt counter strictly increases per
iteration and the condition attempt <= max_retries bounds it. -/
theorem wrapperLoop_fuel_eq (cfg : RateLimitConfig) (acq : ℕ → Bool)
    (fetch : ℕ → FuncResult) :
    ∀ (f g attempt : ℕ) (lastExc : Option Exc),
      cfg.max_retries + 1 ≤ attempt + f →
      cfg.max_retries + 1 ≤ attempt + g →
      wrapperLoop cfg acq fetch lastExc attempt f =
        wrapperLoop cfg acq fetch lastExc attempt g := by
  intro f
  induction f with
  | zero =>
    intro g attempt lastExc hf hg
    have h1 : ¬ attempt ≤ cfg.max_retries := by omega
    cases g with
    | zero => rfl
    | succ g2 =>
      rw [wrapperLoop_zero, wrapperLoop_exit cfg acq fetch lastExc attempt
        g2 h1]
  | succ f2 ih =>
    intro g attempt lastExc hf hg
    cases g with
    | zero =>
      have h1 : ¬ attempt ≤ cfg.max_retries := by omega
      rw [wrapperLoop_zero, wrapperLoop_exit cfg acq fetch lastExc attempt
        f2 h1]
    | succ g2 =>
      by_cases h1 : attempt ≤ cfg.max_retries
      · by_cases h2 : acq attempt = true
        · cases hf2 : fetch attempt with
          | resp s b =>
            by_cases hs : s = 429
            · subst hs
              cases hr : should_retry cfg attempt (some 429) none with
              | true =>
                rw [wrapperLoop_resp429_retry cfg acq fetch lastExc attempt
                    f2 b h1 h2 hf2 hr,
                  wrapperLoop_resp429_retry cfg acq fetch lastExc attempt
                    g2 b h1 h2 hf2 hr,
                  ih g2 (attempt + 1) lastExc (by omega) (by omega)]
              | false =>
                rw [wrapperLoop_resp429_stop cfg acq fetch lastExc attempt
                    f2 b h1 h2 hf2 hr,
                  wrapperLoop_resp429_stop cfg acq fetch lastExc attempt
                    g2 b h1 h2 hf2 hr]
            · rw [wrapperLoop_resp_other cfg acq fetch lastExc attempt f2
                  s b h1 h2 hf2 hs,
                wrapperLoop_resp_other cfg acq fetch lastExc attempt g2
                  s b h1 h2 hf2 hs]
          | exc e =>
            cases hr : should_retry cfg attempt none (some e) with
            | true =>
              rw [wrapperLoop_exc_retry cfg acq fetch lastExc attempt f2
                  e h1 h2 hf2 hr,
                wrapperLoop_exc_retry cfg acq fetch lastExc attempt g2
                  e h1 h2 hf2 hr,
                ih g2 (attempt + 1) (some e) (by omega) (by omega)]
            | false =>
              rw [wrapperLoop_exc_stop cfg acq fetch lastExc attempt f2
                  e h1 h2 hf2 hr,
                wrapperLoop_exc_stop cfg acq fetch lastExc attempt g2
                  e h1 h2 hf2 hr]
        · have h2f : acq attempt = false := by simpa using h2
          rw [wrapperLoop_acqFail cfg acq fetch lastExc attempt f2 h1 h2f,
            wrapperLoop_acqFail cfg acq fetch lastExc attempt g2 h1 h2f]
      · rw [wrapperLoop_exit cfg acq fetch lastExc attempt f2 h1,
          wrapperLoop_exit cfg acq fetch lastExc attempt g2 h1]

/-- Claim C3: for every config (max_retries is a natural, hence at least 0)
and every behavior of the wrapped operation and of token acquisition, the
retry wrapper invokes the wrapped operation at most max_retries + 1 times;
and the loop terminates: max_retries + 1 fuel fully determines the run, any
further fuel leaves it unchanged, because the attempt counter strictly
increases on every retry and the loop exits once it exceeds max_retries. -/
theorem claim_C3_retry_bounded_and_terminates (cfg : RateLimitConfig)
    (acq : ℕ → Bool) (fetch : ℕ → FuncResult) :
    (with_rate_limit_and_retry cfg acq fetch).calls ≤ cfg.max_retries + 1 ∧
    ∀ extra : ℕ,
      wrapperLoop cfg acq fetch none 0 (cfg.max_retries + 1 + extra) =
        with_rate_limit_and_retry cfg acq fetch := by
  constructor
  · exact wrapperLoop_calls_le cfg acq fetch (cfg.max_retries + 1) 0 none
  · intro extra
    exact wrapperLoop_fuel_eq cfg acq fetch (cfg.max_retries + 1 + extra)
      (cfg.max_retries + 1) 0 none (by omega) (by omega)

/-- Auxiliary: when every attempt yields a 429 response and every token
acquisition succeeds, the loop runs its full fuel and returns the response of
the final attempt (attempt number max_retries). -/
theorem wrapperLoop_all429 (cfg : RateLimitConfig) (acq : ℕ → Bool)
    (bodies : ℕ → String) (hacq : ∀ i, acq i = true) :
    ∀ (fuel attempt : ℕ) (lastExc : Option Exc),
      attempt + fuel = cfg.max_retries + 1 → 1 ≤ fuel →
      wrapperLoop cfg acq (fun i => .resp 429 (bodies i)) lastExc attempt
          fuel =
        { result := .ok 429 (bodies cfg.max_retries), calls := fuel,
          tokenAcquires := fuel, rateLimited := fuel, totalReq := fuel,
          connErrs := 0 } := by
  intro fuel
  induction fuel with
  | zero =>
    intro attempt lastExc _ h1
    exact absurd h1 (by omega)
  | succ f ih =>
    intro attempt lastExc hsum _
    have h1 : attempt ≤ cfg.max_retries := by omega
    cases Nat.eq_zero_or_pos f with
    | inl hf0 =>
      subst hf0
      have hmax : attempt = cfg.max_retries := by omega
      have hr : should_retry cfg attempt (some 429) none = false :=
        should_retry_of_limit cfg attempt _ _ (by omega)
      rw [wrapperLoop_resp429_stop cfg acq _ lastExc attempt 0
        (bodies attempt) h1 (hacq attempt) rfl hr, hmax]
    | inr hfpos =>
      have hr : should_retry cfg attempt (some 429) none = true :=
        should_retry_429 cfg attempt (by omega)
      rw [wrapperLoop_resp429_retry cfg acq _ lastExc attempt f
        (bodies attempt) h1 (hacq attempt) rfl hr,
        ih (attempt + 1) lastExc (by omega) hfpos]
      simp [consCall]

/-- Auxiliary: when every attempt raises a retryable exception and every
token acquisition succeeds, the loop runs its full fuel and re-raises the
exception of the final attempt (attempt number max_retries). -/
theorem wrapperLoop_allExc (cfg : RateLimitConfig) (acq : ℕ → Bool)
    (es : ℕ → Exc) (hacq : ∀ i, acq i = true)
    (hret : ∀ i, retryableExc (es i) = true) :
    ∀ (fuel attempt : ℕ) (lastExc : Option Exc),
      attempt + fuel = cfg.max_retries + 1 → 1 ≤ fuel →
      (wrapperLoop cfg acq (fun i => .exc (es i)) lastExc attempt
          fuel).result = .raised (es cfg.max_retries) ∧
      (wrapperLoop cfg acq (fun i => .exc (es i)) lastExc attempt
          fuel).calls = fuel := by
  intro fuel
  induction fuel with
  | zero =>
    intro attempt lastExc _ h1
    exact absurd h1 (by omega)
  | succ f ih =>
    intro attempt lastExc hsum _
    have h1 : attempt ≤ cfg.max_retries := by omega
    cases Nat.eq_zero_or_pos f with
    | inl hf0 =>
      subst hf0
      have hmax : attempt = cfg.max_retries := by omega
      have hr : should_retry cfg attempt none (some (es attempt)) = false :=
        should_retry_of_limit cfg attempt _ _ (by omega)
      rw [wrapperLoop_exc_stop cfg acq _ lastExc attempt 0
        (es attempt) h1 (hacq attempt) rfl hr, hmax]
      exact ⟨rfl, rfl⟩
    | inr hfpos =>
      have hr : should_retry cfg attempt none (some (es attempt)) = true := by
        rw [should_retry_exc cfg attempt (es attempt) (by omega)]
        exact hret attempt
      rw [wrapperLoop_exc_retry cfg acq _ lastExc attempt f
        (es attempt) h1 (hacq attempt) rfl hr]
      have hrec := ih (attempt + 1) (some (es attempt)) (by omega) hfpos
      simp only [consCall]
      exact ⟨hrec.1, by rw [hrec.2]⟩

/-- Claim C9: exhausting all attempts returns the last failure rather than
silently succeeding, through two distinct terminal paths: if every attempt
produced a 429 response, the wrapper returns the final 429 response normally
(no exception), with max_retries + 1 calls made; if every attempt raised a
retryable transport exception, the wrapper re-raises the exception of the
final attempt, again after max_retries + 1 calls. -/
theorem claim_C9_exhaustion_two_paths (cfg : RateLimitConfig)
    (acq : ℕ → Bool) (bodies : ℕ → String) (es : ℕ → Exc)
    (hacq : ∀ i, acq i = true) (hret : ∀ i, retryableExc (es i) = true) :
    with_rate_limit_and_retry cfg acq (fun i => .resp 429 (bodies i)) =
      { result := .ok 429 (bodies cfg.max_retries),
        calls := cfg.max_retries + 1,
        tokenAcquires := cfg.max_retries + 1,
        rateLimited := cfg.max_retries + 1,
        totalReq := cfg.max_retries + 1, connErrs := 0 } ∧
    (with_rate_limit_and_retry cfg acq
        (fun i => .exc (es i))).result = .raised (es cfg.max_retries) ∧
    (with_rate_limit_and_retry cfg acq (fun i => .exc (es i))).calls =
      cfg.max_retries + 1 := by
  refine ⟨?_, ?_⟩
  · exact wrapperLoop_all429 cfg acq bodies hacq (cfg.max_retries + 1) 0
      none (by omega) (by omega)
  · exact wrapperLoop_allExc cfg acq es hacq hret (cfg.max_retries + 1) 0
      none (by omega) (by omega)

/-- Claim C9 witness: the default config, all-succeeding acquisition, and
concrete attempt-indexed responses and exceptions. -/
theorem claim_C9_witness :
    with_rate_limit_and_retry {} acqAll
        (fun i => .resp 429 (toString i)) =
      { result := .ok 429 (toString (3 : ℕ)), calls := 4,
        tokenAcquires := 4, rateLimited := 4, totalReq := 4,
        connErrs := 0 } ∧
    (with_rate_limit_and_retry {} acqAll
        (fun i => .exc { cls := .connection, isReqExc := true,
                         msg := toString i })).result =
      .raised { cls := .connection, isReqExc := true,
                msg := toString (3 : ℕ) } ∧
    (with_rate_limit_and_retry {} acqAll
        (fun i => .exc { cls := .connection, isReqExc := true,
                         msg := toString i })).calls = 4 :=
  claim_C9_exhaustion_two_paths {} acqAll (fun i => toString i)
    (fun i => { cls := .connection, isReqExc := true, msg := toString i })
    (fun _ => rfl) (fun _ => rfl)

/-- Auxiliary: one acquire pass keeps the token count inside [0, burst],
provided the elapsed time and the configured rate are non-negative. -/
theorem acquireStep_invariant (cfg : RateLimitConfig) (st : BucketState)
    (e : ℚ) (hrate : 0 ≤ cfg.requests_per_second) (he : 0 ≤ e)
    (h0 : 0 ≤ st.tokens) :
    0 ≤ (acquireStep cfg st e).1.tokens ∧
      (acquireStep cfg st e).1.tokens ≤ (cfg.burst_requests : ℚ) := by
  have hadd : 0 ≤ st.tokens + e * cfg.requests_per_second :=
    add_nonneg h0 (mul_nonneg he hrate)
  have h2a : (0 : ℚ) ≤
      min (cfg.burst_requests : ℚ) (st.tokens + e * cfg.requests_per_second) :=
    le_min (Nat.cast_nonneg _) hadd
  have h2b : min (cfg.burst_requests : ℚ)
        (st.tokens + e * cfg.requests_per_second) ≤
      (cfg.burst_requests : ℚ) :=
    min_le_left _ _
  simp only [acquireStep, refill_tokens]
  split_ifs with h1
  · exact ⟨by simpa using sub_nonneg.mpr h1,
      le_trans (sub_le_self _ zero_le_one) h2b⟩
  · exact ⟨h2a, h2b⟩

/-- Auxiliary: every state reached by a sequence of acquire attempts from a
state inside [0, burst] stays inside [0, burst]. -/
theorem bucketStates_invariant (cfg : RateLimitConfig)
    (hrate : 0 ≤ cfg.requests_per_second) :
    ∀ (es : List ℚ) (st : BucketState), (∀ e ∈ es, 0 ≤ e) →
      0 ≤ st.tokens → st.tokens ≤ (cfg.burst_requests : ℚ) →
      ∀ s ∈ bucketStates cfg st es,
        0 ≤ s.tokens ∧ s.tokens ≤ (cfg.burst_requests : ℚ) := by
  intro es
  induction es with
  | nil =>
    intro st _ h0 h1 s hs
    simp only [bucketStates, List.mem_singleton] at hs
    subst hs
    exact ⟨h0, h1⟩
  | cons e es ih =>
    intro st hes h0 h1 s hs
    simp only [bucketStates, List.mem_cons] at hs
    rcases hs with hs | hs
    · subst hs
      exact ⟨h0, h1⟩
    · have he : 0 ≤ e := hes e (by simp)
      have hinv := acquireStep_invariant cfg st e hrate he h0
      exact ih _ (fun x hx => hes x (by simp [hx])) hinv.1 hinv.2 s hs

/-- Claim C4: starting from the initial bucket of a config with burst
capacity at least 1, along any sequence of acquire attempts with
non-negative elapsed-time readings the token count never exceeds the burst
capacity and never goes negative; and whenever an acquire is granted, the
count after it is exactly the refilled count minus 1, a decrement that
happens only when at least one token is available after the refill. -/
theorem claim_C4_token_conservation (cfg : RateLimitConfig) (es : List ℚ)
    (hburst : 1 ≤ cfg.burst_requests) (hrate : 0 ≤ cfg.requests_per_second)
    (helapsed : ∀ e ∈ es, 0 ≤ e) :
    (∀ s ∈ bucketStates cfg (initBucket cfg) es,
        0 ≤ s.tokens ∧ s.tokens ≤ (cfg.burst_requests : ℚ)) ∧
    (∀ (st : BucketState) (e : ℚ), (acquireStep cfg st e).2 = true →
        (acquireStep cfg st e).1.tokens =
          (refill_tokens cfg st e).tokens - 1 ∧
        1 ≤ (refill_tokens cfg st e).tokens) := by
  constructor
  · exact bucketStates_invariant cfg hrate es (initBucket cfg) helapsed
      (by simp [initBucket]) (by simp [initBucket])
  · intro st e h
    simp only [acquireStep] at h ⊢
    split_ifs at h ⊢ with h1
    exact ⟨rfl, h1⟩

/-- Claim C4 witness: a burst-2 bucket run through four concrete acquire
attempts. -/
theorem claim_C4_witness :
    (∀ s ∈ bucketStates cfgSmallBucket (initBucket cfgSmallBucket)
        [0, 1, 0, 0],
        0 ≤ s.tokens ∧ s.tokens ≤ (cfgSmallBucket.burst_requests : ℚ)) ∧
    (∀ (st : BucketState) (e : ℚ),
        (acquireStep cfgSmallBucket st e).2 = true →
        (acquireStep cfgSmallBucket st e).1.tokens =
          (refill_tokens cfgSmallBucket st e).tokens - 1 ∧
        1 ≤ (refill_tokens cfgSmallBucket st e).tokens) :=
  claim_C4_token_conservation cfgSmallBucket [0, 1, 0, 0]
    (by norm_num [cfgSmallBucket]) (by norm_num [cfgSmallBucket])
    (by intro e he; fin_cases he <;> norm_num)

/-- Claim C8, counterexample: the claim quantifies over every identifier
that is not exactly 10 decimal digits, but the source validation
npi.isdigit() accepts any Unicode digit-type character, so a string of ten
superscript-two characters - none of which is a decimal digit - passes the
check and does not short-circuit: the call makes one network request and
consumes one rate-limiter token. -/
theorem claim_C8_unicode_digits_pass_validation :
    npiSuperscripts.data.all Char.isDigit = false ∧
    npiSuperscripts.data.length = 10 ∧
    isValidNpi npiSuperscripts = true ∧
    (get_eligibility {} parseId acqAll fetch200 npiSuperscripts
        (some 2024)).networkCalls = 1 ∧
    (get_eligibility {} parseId acqAll fetch200 npiSuperscripts
        (some 2024)).tokensConsumed = 1 ∧
    (get_eligibility {} parseId acqAll fetch200 npiSuperscripts
        (some 2024)).metadata.success = true := by
  refine ⟨by decide, by decide, by decide, rfl, rfl, rfl⟩

/-- Claim C8, amended: for every identifier string rejected by the source
validation (length different from 10, or containing a character without
Unicode digit type - in particular any non-digit character), get_eligibility
short-circuits before any network activity: it returns (None, metadata)
with success false and the precondition error message, makes zero network
calls and consumes no rate-limiter token. Identifiers made of ten
digit-type characters that are not decimal digits pass the validation and
do reach the network, as the counterexample shows. -/
theorem claim_C8_invalid_npi_short_circuit (cfg : RateLimitConfig)
    (parse : String → Except String String) (acq : ℕ → Bool)
    (fetch : ℕ → FuncResult) (npi : String) (year : Option ℕ)
    (hinv : isValidNpi npi = false) :
    get_eligibility cfg parse acq fetch npi year =
      { data := none,
        metadata := { npi := npi, year := year.getD 0, success := false,
                      error_message :=
                        some "Invalid NPI format (must be 10 digits)" },
        stats := {}, networkCalls := 0, tokensConsumed := 0,
        rateLimitedCount := 0 } := by
  simp [get_eligibility, hinv]

/-- Claim C8 witness: the 5-digit identifier of the spec scenario. -/
theorem claim_C8_witness :
    isValidNpi "12345" = false ∧
    get_eligibility {} parseId acqAll fetch500then200 "12345" (some 2024) =
      { data := none,
        metadata := { npi := "12345", year := 2024, success := false,
                      error_message :=
                        some "Invalid NPI format (must be 10 digits)" },
        stats := {}, networkCalls := 0, tokensConsumed := 0,
        rateLimitedCount := 0 } :=
  ⟨by decide,
    claim_C8_invalid_npi_short_circuit {} parseId acqAll fetch500then200
      "12345" (some 2024) (by decide)⟩

/-- Claim C7, counterexample: with the default config a valid NPI whose
transport returns 429 then 200 produces exactly one terminal outcome (a
success), yet the total-request counter is incremented twice, once per
network attempt, so it is not updated exactly once per terminal outcome. -/
theorem claim_C7_total_requests_per_attempt :
    c7run.metadata.success = true ∧
    classificationTotal c7run.stats = 1 ∧
    c7run.networkCalls = 2 ∧
    c7run.stats.total_requests = 2 ∧
    ¬ c7run.stats.total_requests = 1 := by
  refine ⟨rfl, rfl, rfl, rfl, ?_⟩
  decide

/-- Claim C7, amended: per get_eligibility call on a valid NPI, the success
counter and the by-failure-kind counters are together updated exactly once
per terminal outcome, regardless of retries; the total-request counter and
the connection-error counter instead record one increment per network
attempt (per attempt that returned a response, and per attempt that raised a
requests exception, respectively), so they can exceed one per terminal
outcome when retries occur. -/
theorem claim_C7_classification_once (cfg : RateLimitConfig)
    (parse : String → Except String String) (acq : ℕ → Bool)
    (fetch : ℕ → FuncResult) (npi : String) (year : Option ℕ)
    (hvalid : isValidNpi npi = true) :
    classificationTotal
        (get_eligibility cfg parse acq fetch npi year).stats = 1 ∧
    (get_eligibility cfg parse acq fetch npi year).stats.total_requests =
      (with_rate_limit_and_retry cfg acq fetch).totalReq ∧
    (get_eligibility cfg parse acq fetch npi year).stats.connection_errors =
      (with_rate_limit_and_retry cfg acq fetch).connErrs := by
  simp only [get_eligibility, hvalid, Bool.not_true, Bool.false_eq_true,
    if_false]
  cases hres : (with_rate_limit_and_retry cfg acq fetch).result with
  | ok s body =>
    by_cases h200 : s = 200
    · subst h200
      simp only [if_pos rfl]
      cases hp : parse body <;> simp [classificationTotal]
    · simp only [if_neg h200]
      by_cases h404 : s = 404
      · simp [h404, classificationTotal]
      · simp only [if_neg h404]
        by_cases h400 : s = 400
        · simp [h400, classificationTotal]
        · simp only [if_neg h400]
          by_cases h429 : s = 429
          · simp [h429, classificationTotal]
          · simp only [if_neg h429]
            by_cases h5 : (500 ≤ s && s < 600) = true
            · simp [h5, classificationTotal]
            · simp [h5, classificationTotal]
  | raised e => simp [classificationTotal]
  | runtimeErr => simp [classificationTotal]

/-- Claim C7 witness: the amended statement evaluated at the concrete
429-then-200 run. -/
theorem claim_C7_witness :
    classificationTotal
        (get_eligibility {} parseId acqAll fetch429then200 "1234567890"
          (some 2024)).stats = 1 ∧
    (get_eligibility {} parseId acqAll fetch429then200 "1234567890"
          (some 2024)).stats.total_requests =
      (with_rate_limit_and_retry {} acqAll fetch429then200).totalReq ∧
    (get_eligibility {} parseId acqAll fetch429then200 "1234567890"
          (some 2024)).stats.connection_errors =
      (with_rate_limit_and_retry {} acqAll fetch429then200).connErrs :=
  claim_C7_classification_once {} parseId acqAll fetch429then200
    "1234567890" (some 2024) (by decide)

/-- Claim C10: get_eligibility is total at its interface (every branch of
the embedding returns a (data, metadata) pair by construction), and every
exception the request path raises - including the transport exception
re-raised after retry exhaustion, the rate-limiter acquisition TimeoutError,
and the RuntimeError of the unreachable loop exit - is caught and converted
into data none and a metadata with success false whose error message is the
message of the exception. -/
theorem claim_C10_exception_conversion (cfg : RateLimitConfig)
    (parse : String → Except String String) (acq : ℕ → Bool)
    (fetch : ℕ → FuncResult) (npi : String) (year : Option ℕ)
    (hvalid : isValidNpi npi = true) :
    (∀ e : Exc,
      (with_rate_limit_and_retry cfg acq fetch).result = .raised e →
      (get_eligibility cfg parse acq fetch npi year).data = none ∧
      (get_eligibility cfg parse acq fetch npi year).metadata.success =
        false ∧
      (get_eligibility cfg parse acq fetch npi year).metadata.error_message =
        some e.msg) ∧
    ((with_rate_limit_and_retry cfg acq fetch).result = .runtimeErr →
      (get_eligibility cfg parse acq fetch npi year).data = none ∧
      (get_eligibility cfg parse acq fetch npi year).metadata.success =
        false ∧
      (get_eligibility cfg parse acq fetch npi year).metadata.error_message =
        some "Max retries exceeded") := by
  constructor
  · intro e hres
    simp [get_eligibility, hvalid, hres]
  · intro hres
    simp [get_eligibility, hvalid, hres]

/-! Association-list lemmas for the Python dict semantics of year_results. -/

theorem dictLookup_dictInsert_self {V : Type} (l : List (String × V))
    (k : String) (v : V) : dictLookup (dictInsert l k v) k = some v := by
  induction l with
  | nil => simp [dictInsert, dictLookup]
  | cons hd tl ih =>
    obtain ⟨k2, v2⟩ := hd
    by_cases h : k2 = k
    · simp [dictInsert, dictLookup, h]
    · simp [dictInsert, dictLookup, h, ih]

theorem dictLookup_dictInsert_ne {V : Type} (l : List (String × V))
    (k x : String) (v : V) (h : x ≠ k) :
    dictLookup (dictInsert l k v) x = dictLookup l x := by
  have hkx : ¬ k = x := fun h2 => h h2.symm
  induction l with
  | nil => simp [dictInsert, dictLookup, hkx]
  | cons hd tl ih =>
    obtain ⟨k2, v2⟩ := hd
    by_cases h2 : k2 = k
    · subst h2
      simp [dictInsert, dictLookup, hkx, h]
    · by_cases h3 : k2 = x
      · simp [dictInsert, dictLookup, h2, h3, h]
      · simp [dictInsert, dictLookup, h2, h3, ih]

theorem mem_keys_dictInsert {V : Type} (l : List (String × V))
    (k x : String) (v : V) :
    x ∈ (dictInsert l k v).map Prod.fst ↔
      x ∈ l.map Prod.fst ∨ x = k := by
  induction l with
  | nil => simp [dictInsert, eq_comm]
  | cons hd tl ih =>
    obtain ⟨k2, v2⟩ := hd
    by_cases h : k2 = k
    · subst h
      simp [dictInsert, eq_comm]
      tauto
    · simp [dictInsert, h, ih, or_assoc]

theorem nodup_keys_dictInsert {V : Type} (l : List (String × V))
    (k : String) (v : V) (h : (l.map Prod.fst).Nodup) :
    ((dictInsert l k v).map Prod.fst).Nodup := by
  induction l with
  | nil => simp [dictInsert]
  | cons hd tl ih =>
    obtain ⟨k2, v2⟩ := hd
    simp only [List.map_cons, List.nodup_cons] at h
    by_cases hk : k2 = k
    · subst hk
      simpa [dictInsert] using h
    · simp only [dictInsert, hk, if_false, List.map_cons, List.nodup_cons]
      refine ⟨?_, ih h.2⟩
      rw [mem_keys_dictInsert]
      rintro (hx | hx)
      · exact h.1 hx
      · exact hk hx

/-! Projection lemmas for one iteration of the process_year loop. -/

theorem processNpi_fetchCalls (fE : String → Except Exc Outcome) (sf : Bool)
    (sr pr : String → Except Exc Unit) (st : YearState) (npi : String) :
    (processNpi fE sf sr pr st npi).fetchCalls = st.fetchCalls + 1 := by
  cases hf : fE npi with
  | error e => simp [processNpi, hf]
  | ok oc =>
    simp only [processNpi, hf]
    split
    · rfl
    · split
      · split
        · rfl
        · rfl
      · rfl

theorem processNpi_results_error (fE : String → Except Exc Outcome)
    (sf : Bool) (sr pr : String → Except Exc Unit) (st : YearState)
    (npi : String) (e : Exc) (hf : fE npi = .error e) :
    (processNpi fE sf sr pr st npi).results = st.results := by
  simp [processNpi, hf]

theorem processNpi_results_ok (fE : String → Except Exc Outcome) (sf : Bool)
    (sr pr : String → Except Exc Unit) (st : YearState) (npi : String)
    (oc : Outcome) (hf : fE npi = .ok oc) :
    (processNpi fE sf sr pr st npi).results =
      dictInsert st.results npi oc := by
  simp only [processNpi, hf]
  split
  · rfl
  · split
    · split
      · rfl
      · rfl
    · rfl

/-! Loop invariants of process_year. -/

theorem foldl_processNpi_fetchCalls (fE : String → Except Exc Outcome)
    (sf : Bool) (sr pr : String → Except Exc Unit) :
    ∀ (npis : List String) (st : YearState),
      (npis.foldl (processNpi fE sf sr pr) st).fetchCalls =
        st.fetchCalls + npis.length := by
  intro npis
  induction npis with
  | nil => intro st; simp
  | cons n ns ih =>
    intro st
    simp only [List.foldl_cons, List.length_cons]
    rw [ih, processNpi_fetchCalls]
    omega

theorem foldl_processNpi_lookup_of_not_mem
    (fE : String → Except Exc Outcome) (sf : Bool)
    (sr pr : String → Except Exc Unit) :
    ∀ (npis : List String) (st : YearState) (x : String), x ∉ npis →
      dictLookup (npis.foldl (processNpi fE sf sr pr) st).results x =
        dictLookup st.results x := by
  intro npis
  induction npis with
  | nil => intro st x _; rfl
  | cons n ns ih =>
    intro st x hx
    simp only [List.mem_cons, not_or] at hx
    rw [List.foldl_cons, ih _ x hx.2]
    cases hf : fE n with
    | error e => rw [processNpi_results_error fE sf sr pr st n e hf]
    | ok oc =>
      rw [processNpi_results_ok fE sf sr pr st n oc hf,
        dictLookup_dictInsert_ne st.results n x oc hx.1]

theorem foldl_processNpi_lookup_of_mem (fE : String → Except Exc Outcome)
    (f : String → Outcome) (sf : Bool) (sr pr : String → Except Exc Unit) :
    ∀ (npis : List String) (st : YearState) (x : String),
      (∀ y ∈ npis, fE y = Except.ok (f y)) → x ∈ npis →
      dictLookup (npis.foldl (processNpi fE sf sr pr) st).results x =
        some (f x) := by
  intro npis
  induction npis with
  | nil => intro st x _ hx; cases hx
  | cons n ns ih =>
    intro st x hok hx
    rw [List.foldl_cons]
    by_cases hxs : x ∈ ns
    · exact ih _ x (fun y hy => hok y (List.mem_cons_of_mem n hy)) hxs
    · have hxn : x = n := by
        rcases List.mem_cons.mp hx with h | h
        · exact h
        · exact absurd h hxs
      subst hxn
      rw [foldl_processNpi_lookup_of_not_mem fE sf sr pr ns _ x hxs,
        processNpi_results_ok fE sf sr pr st x (f x)
          (hok x (List.mem_cons_self x ns)),
        dictLookup_dictInsert_self]

theorem foldl_processNpi_keys (fE : String → Except Exc Outcome)
    (f : String → Outcome) (sf : Bool) (sr pr : String → Except Exc Unit) :
    ∀ (npis : List String) (st : YearState) (x : String),
      (∀ y ∈ npis, fE y = Except.ok (f y)) →
      (x ∈ (npis.foldl (processNpi fE sf sr pr) st).results.map Prod.fst ↔
        x ∈ st.results.map Prod.fst ∨ x ∈ npis) := by
  intro npis
  induction npis with
  | nil => intro st x _; simp
  | cons n ns ih =>
    intro st x hok
    rw [List.foldl_cons,
      ih _ x (fun y hy => hok y (List.mem_cons_of_mem n hy)),
      processNpi_results_ok fE sf sr pr st n (f n)
        (hok n (List.mem_cons_self n ns)),
      mem_keys_dictInsert]
    simp only [List.mem_cons]
    tauto

theorem foldl_processNpi_keys_nodup (fE : String → Except Exc Outcome)
    (sf : Bool) (sr pr : String → Except Exc Unit) :
    ∀ (npis : List String) (st : YearState),
      (st.results.map Prod.fst).Nodup →
      ((npis.foldl (processNpi fE sf sr pr) st).results.map
        Prod.fst).Nodup := by
  intro npis
  induction npis with
  | nil => intro st h; exact h
  | cons n ns ih =>
    intro st h
    rw [List.foldl_cons]
    refine ih _ ?_
    cases hf : fE n with
    | error e => rw [processNpi_results_error fE sf sr pr st n e hf]; exact h
    | ok oc =>
      rw [processNpi_results_ok fE sf sr pr st n oc hf]
      exact nodup_keys_dictInsert st.results n oc h

/-- Claim C2, counterexample: when the fetch path raises an unexpected
exception on the middle of three identifiers, process_year catches it and
continues (the failed counter rises and the third identifier is processed),
but no FetchOutcome for that identifier is recorded in the result map, so
the map does not contain exactly one outcome for every identifier. -/
theorem claim_C2_fetch_exception_drops_outcome :
    (process_year fetchBoomB false saveNoop saveNoop ["a", "b", "c"]).map
      (fun st => (dictLookup st.results "b", dictLookup st.results "a",
        dictLookup st.results "c", st.failed_count)) =
    Except.ok (none, some (okOutcome "a"), some (okOutcome "c"), 1) := by
  rfl

/-- Claim C2, amended: after a full run of process_year over a non-empty
identifier list whose fetch path returns normally on every identifier (which
is every run driven by get_eligibility, since that call catches all
exceptions), the result map holds exactly one FetchOutcome per input
identifier: its keys are duplicate-free, they are exactly the input
identifiers, and each identifier maps to the outcome its fetch returned. An
identifier whose fetch call raises is caught and counted as failed, with
processing continuing, but - contrary to the claim - no outcome is recorded
for it, as the counterexample shows. -/
theorem claim_C2_outcome_completeness (fE : String → Except Exc Outcome)
    (f : String → Outcome) (sf : Bool) (sr pr : String → Except Exc Unit)
    (npis : List String) (hne : npis ≠ [])
    (hok : ∀ x ∈ npis, fE x = Except.ok (f x)) :
    ∃ st : YearState,
      process_year fE sf sr pr npis = Except.ok st ∧
      (st.results.map Prod.fst).Nodup ∧
      (∀ x, x ∈ st.results.map Prod.fst ↔ x ∈ npis) ∧
      (∀ x ∈ npis, dictLookup st.results x = some (f x)) := by
  have hne2 : npis.isEmpty = false := by
    cases npis with
    | nil => exact absurd rfl hne
    | cons n ns => rfl
  refine ⟨npis.foldl (processNpi fE sf sr pr)
    { results := [], successful_count := 0, failed_count := 0,
      fetchCalls := 0 }, ?_, ?_, ?_, ?_⟩
  · simp [process_year, hne2]
  · exact foldl_processNpi_keys_nodup fE sf sr pr npis _ (by simp)
  · intro x
    rw [foldl_processNpi_keys fE f sf sr pr npis _ x hok]
    simp
  · intro x hx
    exact foldl_processNpi_lookup_of_mem fE f sf sr pr npis _ x hok hx

/-- Claim C2 witness: the amended statement evaluated on five concrete
identifiers with an all-succeeding fetch path. -/
theorem claim_C2_witness :
    ∃ st : YearState,
      process_year fetchAllOk false saveNoop saveNoop npis5 =
        Except.ok st ∧
      (st.results.map Prod.fst).Nodup ∧
      (∀ x, x ∈ st.results.map Prod.fst ↔ x ∈ npis5) ∧
      (∀ x ∈ npis5, dictLookup st.results x = some (okOutcome x)) :=
  claim_C2_outcome_completeness fetchAllOk okOutcome false saveNoop saveNoop
    npis5 (by simp [npis5]) (fun x _ => rfl)

/-- Claim C6: the claim says a restart with a checkpoint recording k of n
identifiers skips the first k, so that only n - k fetch calls occur. The
code has no such logic: resume_from_checkpoint only returns the stored
checkpoint data (shown here for k = 2), process_year always iterates the
full list (5 fetch calls for 5 identifiers, not 3), and in general the loop
performs exactly one fetch call per input identifier regardless of any
checkpoint. -/
theorem claim_C6_resume_does_not_skip :
    resume_from_checkpoint ckStored =
      some { year := 2024, npis_processed := 2, total_npis := 5,
             successful_npis := 2, failed_npis := 0 } ∧
    (process_year fetchAllOk false saveNoop saveNoop npis5).map
      YearState.fetchCalls = Except.ok 5 ∧
    ¬ (5 : ℕ) = 5 - 2 ∧
    (∀ (fE : String → Except Exc Outcome) (sf : Bool)
        (sr pr : String → Except Exc Unit) (npis : List String)
        (st : YearState),
      (npis.foldl (processNpi fE sf sr pr) st).fetchCalls =
        st.fetchCalls + npis.length) := by
  refine ⟨rfl, rfl, by decide, ?_⟩
  intro fE sf sr pr npis st
  exact foldl_processNpi_fetchCalls fE sf sr pr npis st

/-- Claim C10 witness: a valid NPI whose transport always raises the
non-retryable unexpected exception; the raised exception is converted into a
failed metadata carrying its message. -/
theorem claim_C10_witness :
    (with_rate_limit_and_retry {} acqAll fetchRaise).result =
      .raised excBoom ∧
    (get_eligibility {} parseId acqAll fetchRaise "1234567890"
        (some 2024)).data = none ∧
    (get_eligibility {} parseId acqAll fetchRaise "1234567890"
        (some 2024)).metadata.success = false ∧
    (get_eligibility {} parseId acqAll fetchRaise "1234567890"
        (some 2024)).metadata.error_message = some excBoom.msg :=
  ⟨rfl,
    (claim_C10_exception_conversion {} parseId acqAll fetchRaise
      "1234567890" (some 2024) (by decide)).1 excBoom rfl⟩

end CmsExtractor
